import Mathlib

/-!
Verification development for the solid-graphql repository.

The development shallowly embeds the three source modules the claims are
about:

- the literal codec layer of packages/directives/linked-data/lib/scalarType/ID.ts
  (the serialize = decode and parseValue = encode closures of the string,
  date, int, float, url and ID scalar mappers);
- the SHACL shape compiler of packages/introspection/shacl/lib/index.ts
  (getDatatype, the modifier cardinality resolver, and the per-shape /
  per-property compilation loop of getMeshSource);
- the identifier resolution helper nodeFromDirective of
  lib/directives/properties.ts.

JavaScript exceptions are modelled by Except JSError; an explicit
throw new Error(msg) becomes JSError.thrown msg, while a runtime TypeError
(reading a property of undefined, a failed URL construction) becomes
JSError.typeError msg.  External collaborators (the rdf-literal type
handlers, the parseInt and URL builtins, and the utils module of the
introspection package, which is not included under src) are modelled
separately; each such definition carries a doc comment saying what it
models.
-/

/-- Numbers of the JavaScript runtime as they arise in this codebase: an
exact integer, NaN (for example the result of a failed parseInt), or
Infinity (the default maxCount of the cardinality resolver).  Fractional
doubles never reach the code under scrutiny, which only ever inspects
numbers via typeof, comparison with 0 and 1, and string rendering. -/
inductive JSNum where
  | int (n : Int)
  | nan
  | inf
deriving DecidableEq

/-- JavaScript comparison a < b: NaN compares false with everything,
Infinity is greater than every integer. -/
def JSNum.lt : JSNum → JSNum → Bool
  | .int a, .int b => decide (a < b)
  | .int _, .inf => true
  | _, _ => false

/-- JavaScript comparison a > b. -/
def JSNum.gt (a b : JSNum) : Bool := JSNum.lt b a

/-- JavaScript strict equality on numbers: NaN is not equal to anything,
including itself. -/
def JSNum.eqJS : JSNum → JSNum → Bool
  | .int a, .int b => decide (a = b)
  | .inf, .inf => true
  | _, _ => false

/-- String rendering of a JavaScript number, as produced by template
interpolation. -/
def JSNum.render : JSNum → String
  | .int n => toString n
  | .nan => "NaN"
  | .inf => "Infinity"

/-- Failure of a JavaScript computation: either an explicitly thrown Error
carrying its message, or a runtime TypeError such as reading a property of
undefined or a failed URL construction. -/
inductive JSError where
  | thrown (msg : String)
  | typeError (msg : String)
deriving DecidableEq

/-- RDF term in the rdfjs data model as used by the repository: a NamedNode
IRI, a BlankNode, or a Literal carrying a lexical value and its datatype
term.  The datatype slot holds a full term because the codecs defensively
check value.datatype.termType. -/
inductive Term where
  | namedNode (v : String)
  | blankNode (v : String)
  | literal (lex : String) (datatype : Term)
deriving DecidableEq

/-- The value accessor of an rdfjs term. -/
def Term.value : Term → String
  | .namedNode v => v
  | .blankNode v => v
  | .literal lex _ => lex

/-- The termType tag of an rdfjs term, as a string. -/
def Term.termTypeName : Term → String
  | .namedNode _ => "NamedNode"
  | .blankNode _ => "BlankNode"
  | .literal _ _ => "Literal"

/-- Native JavaScript values crossing the codec boundary: text, numbers,
booleans, Date objects (modelled by their ISO lexical form) and URL objects
(modelled by their href). -/
inductive JSValue where
  | str (s : String)
  | num (n : JSNum)
  | boolean (b : Bool)
  | date (iso : String)
  | url (href : String)
deriving DecidableEq

/-- The JavaScript typeof operator on the modelled values. -/
def typeofJS : JSValue → String
  | .str _ => "string"
  | .num _ => "number"
  | .boolean _ => "boolean"
  | .date _ => "object"
  | .url _ => "object"

/-- String rendering of a JavaScript value under template interpolation.
Date and URL objects are abstracted to their ISO form and href. -/
def renderJS : JSValue → String
  | .str s => s
  | .num n => n.render
  | .boolean true => "true"
  | .boolean false => "false"
  | .date iso => iso
  | .url href => href

/-- Numeric value of a nonempty digit run. -/
def natOfDigits (cs : List Char) : Nat :=
  cs.foldl (fun acc c => 10 * acc + (c.toNat - 48)) 0

/-- Longest leading digit run of a character list, as a number; none when
the list does not start with a digit. -/
def digitsValue (cs : List Char) : Option Nat :=
  let ds := cs.takeWhile Char.isDigit
  if ds.isEmpty then none else some (natOfDigits ds)

/-- Modelled from the JavaScript parseInt builtin as used with no radix on
decimal count literals: skip leading spaces, read an optional sign and then
the longest leading digit run; NaN when no digit follows.  The hexadecimal
auto-detection of parseInt is not modelled, since count literals are
decimal. -/
def parseIntJS (s : String) : JSNum :=
  let cs := s.data.dropWhile (fun c => c = ' ')
  match cs with
  | '-' :: rest =>
    match digitsValue rest with
    | none => .nan
    | some n => .int (-(n : Int))
  | '+' :: rest =>
    match digitsValue rest with
    | none => .nan
    | some n => .int (n : Int)
  | other =>
    match digitsValue other with
    | none => .nan
    | some n => .int (n : Int)

/-- Modelled from the external rdf-literal package: the strict lexical form
of an xsd integer, an optional sign followed by one or more digits. -/
def parseIntegerLexical (s : String) : Option Int :=
  match s.data with
  | [] => none
  | '-' :: rest =>
    if rest ≠ [] ∧ rest.all Char.isDigit then some (-(natOfDigits rest : Int)) else none
  | '+' :: rest =>
    if rest ≠ [] ∧ rest.all Char.isDigit then some ((natOfDigits rest : Int)) else none
  | cs =>
    if cs.all Char.isDigit then some ((natOfDigits cs : Int)) else none

/-- Modelled from the external rdf-literal package: a coarse check that a
string is a double lexical form (at least one digit, and only digits,
signs, a decimal point or an exponent marker). -/
def isDoubleLexical (s : String) : Bool :=
  s.data.any Char.isDigit &&
    s.data.all (fun c => c.isDigit || c == '.' || c == '-' || c == '+' || c == 'e' || c == 'E')

/-- Modelled from the external rdf-literal package: a coarse strict date
lexical check, a four digit year, two digit month and two digit day, with
an optional time part introduced by T. -/
def isDateLexical (s : String) : Bool :=
  match s.data with
  | y1 :: y2 :: y3 :: y4 :: '-' :: m1 :: m2 :: '-' :: d1 :: d2 :: rest =>
    y1.isDigit && y2.isDigit && y3.isDigit && y4.isDigit &&
      m1.isDigit && m2.isDigit && d1.isDigit && d2.isDigit &&
      (rest.isEmpty || rest.head? == some 'T')
  | _ => false

/-- Modelled from the WHATWG URL builtin used by the url codec: a string
parses when a nonempty scheme is followed by the :// separator; href
normalization is not modelled, the input is kept as the href. -/
def urlParse (s : String) : Option String :=
  match s.splitOn "://" with
  | scheme :: _ :: _ => if scheme.isEmpty then none else some s
  | _ => none

/-- Helper for camelize: drop separators and capitalize the character that
follows one. -/
def camelizeAux : Bool → List Char → List Char
  | _, [] => []
  | up, c :: cs =>
    if c = ' ' ∨ c = '-' ∨ c = '_' then camelizeAux true cs
    else (if up then c.toUpper else c) :: camelizeAux false cs

/-- Modelled from the spec: the camelize utility of the introspection
package (its utils module is not included under src); camel-cases a name
literal to derive a field name, lowercasing the leading character and
joining separator-delimited words. -/
def camelize (s : String) : String :=
  match s.data with
  | [] => ""
  | c :: cs => String.mk (c.toLower :: camelizeAux false cs)

/-- Modelled from the external rdf-literal package: the recognized datatype
IRIs of TypeHandlerString. -/
def TypeHandlerString_TYPES : List String :=
  [ "http://www.w3.org/2001/XMLSchema#string"
  , "http://www.w3.org/2001/XMLSchema#normalizedString"
  , "http://www.w3.org/2001/XMLSchema#anyURI"
  , "http://www.w3.org/2001/XMLSchema#base64Binary"
  , "http://www.w3.org/2001/XMLSchema#language"
  , "http://www.w3.org/2001/XMLSchema#Name"
  , "http://www.w3.org/2001/XMLSchema#NCName"
  , "http://www.w3.org/2001/XMLSchema#NMTOKEN"
  , "http://www.w3.org/2001/XMLSchema#token"
  , "http://www.w3.org/2001/XMLSchema#hexBinary"
  , "http://www.w3.org/1999/02/22-rdf-syntax-ns#langString" ]

/-- Modelled from the external rdf-literal package: the recognized datatype
IRIs of TypeHandlerNumberInteger. -/
def TypeHandlerNumberInteger_TYPES : List String :=
  [ "http://www.w3.org/2001/XMLSchema#integer"
  , "http://www.w3.org/2001/XMLSchema#long"
  , "http://www.w3.org/2001/XMLSchema#int"
  , "http://www.w3.org/2001/XMLSchema#byte"
  , "http://www.w3.org/2001/XMLSchema#short"
  , "http://www.w3.org/2001/XMLSchema#negativeInteger"
  , "http://www.w3.org/2001/XMLSchema#nonNegativeInteger"
  , "http://www.w3.org/2001/XMLSchema#nonPositiveInteger"
  , "http://www.w3.org/2001/XMLSchema#positiveInteger"
  , "http://www.w3.org/2001/XMLSchema#unsignedByte"
  , "http://www.w3.org/2001/XMLSchema#unsignedInt"
  , "http://www.w3.org/2001/XMLSchema#unsignedLong"
  , "http://www.w3.org/2001/XMLSchema#unsignedShort" ]

/-- Modelled from the external rdf-literal package: the recognized datatype
IRIs of TypeHandlerNumberDouble. -/
def TypeHandlerNumberDouble_TYPES : List String :=
  [ "http://www.w3.org/2001/XMLSchema#double"
  , "http://www.w3.org/2001/XMLSchema#decimal"
  , "http://www.w3.org/2001/XMLSchema#float" ]

/-- Modelled from the external rdf-literal package: the recognized datatype
IRIs of TypeHandlerDate. -/
def TypeHandlerDate_TYPES : List String :=
  [ "http://www.w3.org/2001/XMLSchema#dateTime"
  , "http://www.w3.org/2001/XMLSchema#date"
  , "http://www.w3.org/2001/XMLSchema#gDay"
  , "http://www.w3.org/2001/XMLSchema#gMonthDay"
  , "http://www.w3.org/2001/XMLSchema#gYear"
  , "http://www.w3.org/2001/XMLSchema#gYearMonth" ]

/-- Modelled from the external rdf-literal package: the single recognized
datatype IRI of TypeHandlerBoolean. -/
def TypeHandlerBoolean_TYPE : String := "http://www.w3.org/2001/XMLSchema#boolean"

/-- Error message of the serialize closures when the term is not a Literal,
shared verbatim by the string, date, int, float and url codecs. -/
def expectedLiteralMsg (t : Term) : String :=
  "Expected Literal term, instead received " ++ (t.value ++ (" of type " ++ t.termTypeName))

/-- Error message of the serialize closures when the datatype of the
literal is not a NamedNode, shared verbatim by the string, date, int, float
and url codecs. -/
def expectedNamedNodeMsg (dt : Term) : String :=
  "Expected datatype to be a NamedNode, instead received " ++ (dt.value ++ (" of type " ++ dt.termTypeName))

/-- Modelled from the external rdf-literal package: TypeHandlerString.fromRdf
returns the lexical value of the literal unchanged. -/
def stringHandler_fromRdf (v : String) : JSValue := .str v

/-- Modelled from the external rdf-literal package: TypeHandlerString.toRdf
builds a literal tagged with the datatype passed in the options. -/
def stringHandler_toRdf (v : String) (datatype : String) : Term :=
  .literal v (.namedNode datatype)

/-- Modelled from the external rdf-literal package: validating fromRdf of
TypeHandlerNumberInteger parses the strict integer lexical form and throws
on anything else. -/
def intHandler_fromRdf (v : String) : Except JSError JSValue :=
  match parseIntegerLexical v with
  | some n => .ok (.num (.int n))
  | none => .error (.thrown ("Invalid RDF integer value: " ++ v))

/-- Modelled from the external rdf-literal package: validating fromRdf of
TypeHandlerNumberDouble checks the double lexical form and throws on
anything else; non-integral numeric results are abstracted to NaN, which
the surrounding code only ever inspects through typeof and rendering. -/
def doubleHandler_fromRdf (v : String) : Except JSError JSValue :=
  if isDoubleLexical v then
    .ok (.num (match parseIntegerLexical v with | some n => .int n | none => .nan))
  else
    .error (.thrown ("Invalid RDF double value: " ++ v))

/-- Modelled from the external rdf-literal package: validating fromRdf of
TypeHandlerDate checks the strict date lexical form and returns a Date
(modelled by its lexical form). -/
def dateHandler_fromRdf (v : String) : Except JSError JSValue :=
  if isDateLexical v then .ok (.date v)
  else .error (.thrown ("Invalid RDF date value: " ++ v))

/-- Modelled from the external rdf-literal package:
TypeHandlerNumberInteger.toRdf stringifies the value and tags it with the
canonical xsd integer IRI. -/
def intHandler_toRdf (value : JSValue) : Term :=
  .literal (renderJS value) (.namedNode "http://www.w3.org/2001/XMLSchema#integer")

/-- Modelled from the external rdf-literal package:
TypeHandlerNumberDouble.toRdf stringifies the value and tags it with the
canonical xsd double IRI. -/
def doubleHandler_toRdf (value : JSValue) : Term :=
  .literal (renderJS value) (.namedNode "http://www.w3.org/2001/XMLSchema#double")

/-- Modelled from the external rdf-literal package: TypeHandlerDate.toRdf
serializes the Date and tags it with the xsd dateTime IRI. -/
def dateHandler_toRdf (iso : String) : Term :=
  .literal iso (.namedNode "http://www.w3.org/2001/XMLSchema#dateTime")

/-- Lexical stage of the string codec decode: fromRdf of the string handler
followed by the defensive typeof check of the source. -/
def string_lexStage (v : String) : Except JSError JSValue :=
  let result := stringHandler_fromRdf v
  if typeofJS result ≠ "string" then
    .error (.thrown ("Expected node to have string value, instead received " ++ (renderJS result ++ (" of type " ++ typeofJS result))))
  else
    .ok result

/-- Lexical stage of the date codec decode: validating fromRdf of the date
handler followed by the instanceof Date check of the source. -/
def date_lexStage (v : String) : Except JSError JSValue :=
  match dateHandler_fromRdf v with
  | .error e => .error e
  | .ok result =>
    match result with
    | .date _ => .ok result
    | _ =>
      .error (.thrown ("Expected node to have string value, instead received " ++ (renderJS result ++ (" of type " ++ typeofJS result))))

/-- Lexical stage of the int codec decode: validating fromRdf of the
integer handler followed by the inverted typeof check of the source, which
throws precisely when the result IS a number. -/
def int_lexStage (v : String) : Except JSError JSValue :=
  match intHandler_fromRdf v with
  | .error e => .error e
  | .ok result =>
    if typeofJS result = "number" then
      .error (.thrown ("Expected node to have number value, instead received " ++ (renderJS result ++ (" of type " ++ typeofJS result))))
    else
      .ok result

/-- Lexical stage of the float codec decode: validating fromRdf of the
double handler followed by the inverted typeof check of the source, which
throws precisely when the result IS a number. -/
def float_lexStage (v : String) : Except JSError JSValue :=
  match doubleHandler_fromRdf v with
  | .error e => .error e
  | .ok result =>
    if typeofJS result = "number" then
      .error (.thrown ("Expected node to have number value, instead received " ++ (renderJS result ++ (" of type " ++ typeofJS result))))
    else
      .ok result

/-- Lexical stage of the url codec decode: the typeof check on the lexical
value (always a string in the data model) followed by URL construction,
which raises a TypeError on an unparsable URL. -/
def url_lexStage (v : String) : Except JSError JSValue :=
  if typeofJS (JSValue.str v) ≠ "string" then
    .error (.thrown "Expected node to have string value")
  else
    match urlParse v with
    | some href => .ok (.url href)
    | none => .error (.typeError ("Invalid URL: " ++ v))

/-- Decode of the string scalar (the serialize closure of the string mapper
in ID.ts): term kind check, datatype NamedNode check, datatype membership
check, then the lexical stage. -/
def string_serialize (value : Term) : Except JSError JSValue :=
  match value with
  | .literal v dt =>
    match dt with
    | .namedNode dtv =>
      if TypeHandlerString_TYPES.contains dtv then string_lexStage v
      else .error (.thrown ("Expected a string type, instead received " ++ dtv))
    | _ => .error (.thrown (expectedNamedNodeMsg dt))
  | t => .error (.thrown (expectedLiteralMsg t))

/-- Encode of the string scalar (the parseValue closure of the string
mapper in ID.ts): typeof check, then toRdf with the canonical xsd string
datatype. -/
def string_parseValue (value : JSValue) : Except JSError Term :=
  match value with
  | .str s => .ok (stringHandler_toRdf s "http://www.w3.org/2001/XMLSchema#string")
  | v => .error (.thrown ("Expected string, received " ++ (renderJS v ++ (" of type " ++ typeofJS v))))

/-- Decode of the Date scalar (the serialize closure of the date mapper in
ID.ts). -/
def date_serialize (value : Term) : Except JSError JSValue :=
  match value with
  | .literal v dt =>
    match dt with
    | .namedNode dtv =>
      if TypeHandlerDate_TYPES.contains dtv then date_lexStage v
      else .error (.thrown ("Expected a string type, instead received " ++ dtv))
    | _ => .error (.thrown (expectedNamedNodeMsg dt))
  | t => .error (.thrown (expectedLiteralMsg t))

/-- Encode of the Date scalar (the parseValue closure of the date mapper in
ID.ts): instanceof check, then toRdf of the date handler. -/
def date_parseValue (value : JSValue) : Except JSError Term :=
  match value with
  | .date iso => .ok (dateHandler_toRdf iso)
  | v => .error (.thrown ("Expected string, received " ++ (renderJS v ++ (" of type " ++ typeofJS v))))

/-- Decode of the Int scalar (the serialize closure of the int mapper in
ID.ts). -/
def int_serialize (value : Term) : Except JSError JSValue :=
  match value with
  | .literal v dt =>
    match dt with
    | .namedNode dtv =>
      if TypeHandlerNumberInteger_TYPES.contains dtv then int_lexStage v
      else .error (.thrown ("Expected a string type, instead received " ++ dtv))
    | _ => .error (.thrown (expectedNamedNodeMsg dt))
  | t => .error (.thrown (expectedLiteralMsg t))

/-- Encode of the Int scalar (the parseValue closure of the int mapper in
ID.ts): an inverted typeof check that throws precisely when the value IS a
number, then toRdf of the integer handler. -/
def int_parseValue (value : JSValue) : Except JSError Term :=
  if typeofJS value = "number" then
    .error (.thrown ("Expected node to have number value, instead received " ++ (renderJS value ++ (" of type " ++ typeofJS value))))
  else
    .ok (intHandler_toRdf value)

/-- Decode of the Double scalar (the serialize closure of the float mapper
in ID.ts). -/
def float_serialize (value : Term) : Except JSError JSValue :=
  match value with
  | .literal v dt =>
    match dt with
    | .namedNode dtv =>
      if TypeHandlerNumberDouble_TYPES.contains dtv then float_lexStage v
      else .error (.thrown ("Expected a string type, instead received " ++ dtv))
    | _ => .error (.thrown (expectedNamedNodeMsg dt))
  | t => .error (.thrown (expectedLiteralMsg t))

/-- Encode of the Double scalar (the parseValue closure of the float mapper
in ID.ts): an inverted typeof check that throws precisely when the value IS
a number, then toRdf of the double handler. -/
def float_parseValue (value : JSValue) : Except JSError Term :=
  if typeofJS value = "number" then
    .error (.thrown ("Expected node to have number value, instead received " ++ (renderJS value ++ (" of type " ++ typeofJS value))))
  else
    .ok (doubleHandler_toRdf value)

/-- The canonical anyURI datatype IRI of the url codec. -/
def anyURI : String := "http://www.w3.org/2001/XMLSchema#anyURI"

/-- Decode of the URL scalar (the serialize closure of the url mapper in
ID.ts): term kind check, datatype NamedNode check, strict equality with the
anyURI IRI, then URL construction. -/
def url_serialize (value : Term) : Except JSError JSValue :=
  match value with
  | .literal v dt =>
    match dt with
    | .namedNode dtv =>
      if dtv = anyURI then url_lexStage v
      else .error (.thrown ("Expected a anyURI type, instead received " ++ dtv))
    | _ => .error (.thrown (expectedNamedNodeMsg dt))
  | t => .error (.thrown (expectedLiteralMsg t))

/-- Encode of the URL scalar (the parseValue closure of the url mapper in
ID.ts): instanceof URL check, then a literal of the href tagged with the
anyURI IRI. -/
def url_parseValue (value : JSValue) : Except JSError Term :=
  match value with
  | .url href => .ok (.literal href (.namedNode anyURI))
  | v => .error (.thrown ("Expected URL, received " ++ (renderJS v ++ (" of type " ++ typeofJS v))))

/-- Decode of the ID scalar (the serialize closure of the ID mapper in
ID.ts): the term must be a NamedNode, whose value is returned. -/
def ID_serialize (scalarName : String) (value : Term) : Except JSError JSValue :=
  match value with
  | .namedNode v => .ok (.str v)
  | _ => .error (.thrown ("Expected @" ++ (scalarName ++ " to be a NamedNode")))

/-- Encode of the ID scalar (the parseValue closure of the ID mapper in
ID.ts): typeof check, then an unconditional NamedNode wrapper. -/
def ID_parseValue (value : JSValue) : Except JSError Term :=
  match value with
  | .str s => .ok (.namedNode s)
  | v => .error (.thrown ("Expected string, received " ++ (renderJS v ++ (" of type " ++ typeofJS v))))

/-- Modelled from the spec: the Boolean codec decode; the Boolean family is
described by the spec but its codec is not included under src.  It follows
the discipline of the other codecs: term kind check, datatype NamedNode
check, membership in the single recognized boolean IRI, then strict boolean
lexical parsing. -/
def boolean_serialize (value : Term) : Except JSError JSValue :=
  match value with
  | .literal v dt =>
    match dt with
    | .namedNode dtv =>
      if dtv = TypeHandlerBoolean_TYPE then
        if v = "true" ∨ v = "1" then .ok (.boolean true)
        else if v = "false" ∨ v = "0" then .ok (.boolean false)
        else .error (.thrown ("Invalid RDF boolean value: " ++ v))
      else .error (.thrown ("Expected a boolean type, instead received " ++ dtv))
    | _ => .error (.thrown (expectedNamedNodeMsg dt))
  | t => .error (.thrown (expectedLiteralMsg t))

/-- Modelled from the spec: the Boolean codec encode; rejects non-boolean
native values and tags the canonical boolean IRI. -/
def boolean_parseValue (value : JSValue) : Except JSError Term :=
  match value with
  | .boolean true => .ok (.literal "true" (.namedNode TypeHandlerBoolean_TYPE))
  | .boolean false => .ok (.literal "false" (.namedNode TypeHandlerBoolean_TYPE))
  | v => .error (.thrown ("Expected boolean, received " ++ (renderJS v ++ (" of type " ++ typeofJS v))))

/-- Boolean lexical stage used to state the check-order theorem uniformly:
what the modelled boolean decode does once term kind and datatype have been
accepted. -/
def boolean_lexStage (v : String) : Except JSError JSValue :=
  if v = "true" ∨ v = "1" then .ok (.boolean true)
  else if v = "false" ∨ v = "0" then .ok (.boolean false)
  else .error (.thrown ("Invalid RDF boolean value: " ++ v))

/-- GraphQL output types produced by the SHACL introspection module: the
base scalars of its mappings table and the NonNull and List wrappers. -/
inductive GQLType where
  | gqlString
  | gqlInt
  | gqlDouble
  | gqlDate
  | gqlBoolean
  | nonNull (t : GQLType)
  | list (t : GQLType)
deriving DecidableEq

/-- The mappings table of the SHACL module: recognized datatype IRI sets
paired with the GraphQL scalar they resolve to, in source order. -/
def mappings : List (List String × GQLType) :=
  [ (TypeHandlerString_TYPES, .gqlString)
  , (TypeHandlerNumberInteger_TYPES, .gqlInt)
  , (TypeHandlerNumberDouble_TYPES, .gqlDouble)
  , (TypeHandlerDate_TYPES, .gqlDate)
  , ([TypeHandlerBoolean_TYPE], .gqlBoolean) ]

/-- Lookup of a datatype IRI in the mappings table (getDatatype in
index.ts): the first handler whose TYPES contain the IRI wins. -/
def getDatatype (u : String) : Option GQLType :=
  (mappings.find? (fun m => m.1.contains u)).map (fun m => m.2)

/-- Datatype lookup guarded by the term kind (getDatatypeSafe in index.ts):
undefined unless the datatype term is a NamedNode. -/
def getDatatypeSafe : Term → Option GQLType
  | .namedNode u => getDatatype u
  | _ => none

/-- The cardinality resolver (modifier in index.ts).  Absent arguments take
the JavaScript defaults minCount = 0 and maxCount = Infinity; the
comparisons and strict equalities follow JavaScript number semantics. -/
def modifier (t : GQLType) (minCount maxCount : Option JSNum) : Except JSError GQLType :=
  let mi := minCount.getD (.int 0)
  let mx := maxCount.getD .inf
  if mx.lt (.int 1) then
    .error (.thrown "Field should not exist for maxCount less than 1")
  else if mx.gt (.int 1) then
    .ok (.nonNull (.list (.nonNull t)))
  else if mi.eqJS (.int 1) then
    .ok (.nonNull t)
  else if mi.eqJS (.int 0) then
    .ok t
  else
    .error (.thrown ("Invalid SHACL constraint - received minCount: " ++ (mi.render ++ (" and maxCount: " ++ mx.render))))

/-- A property descriptor as read by getMeshSource: the single path term
and the lists of objects found for each SHACL attribute of the property. -/
structure SHProperty where
  path : Term
  datatype : List Term
  nodeKind : List Term
  clss : List Term
  name : List Term
  maxCount : List Term
  minCount : List Term
  description : List Term
deriving DecidableEq

/-- A compiled field (PropertyInterface in the introspection utils): the
origin predicate IRI, the wrapped GraphQL type and an optional
description. -/
structure CompiledField where
  iri : String
  type : GQLType
  description : Option String
deriving DecidableEq

/-- A compiled object type, modelling from the spec the createObject call
of the introspection utils module (not included under src) as a plain
record: name, originating target class, ordered field mapping, and
description. -/
structure CompiledType where
  name : String
  clss : Option String
  fields : List (String × CompiledField)
  description : Option String
deriving DecidableEq

/-- Field type resolution of a property (the datatype branch of
getMeshSource): defined only when exactly one datatype object is present
and it resolves through getDatatypeSafe. -/
def fieldTypeOf : List Term → Option GQLType
  | [d] => getDatatypeSafe d
  | _ => none

/-- Field name derivation of a property: defined when exactly one name
object is present and it is a Literal, in which case the value is
camel-cased. -/
def fieldNameOf : List Term → Option String
  | [t] =>
    match t with
    | .literal v _ => some (camelize v)
    | _ => none
  | _ => none

/-- Description extraction: the value of a single Literal description
object, ignored otherwise. -/
def descriptionOf : List Term → Option String
  | [t] =>
    match t with
    | .literal v _ => some v
    | _ => none
  | _ => none

/-- Count argument construction of getMeshSource: parseInt of the first
object value when any is present, undefined otherwise. -/
def countArg : List Term → Option JSNum
  | [] => none
  | t :: _ => some (parseIntJS t.value)

/-- Compilation of one property descriptor, following getMeshSource line by
line: resolve the field type (throw when undefined), apply the cardinality
resolver, require the path to be a NamedNode, require a truthy field name,
and build the compiled field.  The empty string counts as a missing field
name because it is falsy in JavaScript. -/
def compileProperty (p : SHProperty) : Except JSError (String × CompiledField) :=
  let fieldType := fieldTypeOf p.datatype
  let fieldName := fieldNameOf p.name
  match fieldType with
  | none => .error (.thrown "Field type should be defined by now")
  | some ft =>
    match modifier ft (countArg p.minCount) (countArg p.maxCount) with
    | .error e => .error e
    | .ok wrapped =>
      match p.path with
      | .namedNode iri =>
        match fieldName with
        | some fn =>
          if fn = "" then .error (.thrown "Expected field name to be defined by this point")
          else .ok (fn, { iri := iri, type := wrapped, description := descriptionOf p.description })
        | none => .error (.thrown "Expected field name to be defined by this point")
      | _ => .error (.thrown "Path should be a NameNode")

/-- Insertion into the propertyFields object of getMeshSource, with
JavaScript object semantics: an existing key keeps its position but its
value is overwritten, a new key is appended. -/
def insertField : List (String × CompiledField) → String → CompiledField → List (String × CompiledField)
  | [], n, f => [(n, f)]
  | (k, v) :: rest, n, f =>
    if k = n then (k, f) :: rest else (k, v) :: insertField rest n f

/-- The property loop of getMeshSource with its accumulator object:
compile each property in order and insert it under its field name; the
first failing property aborts the whole shape. -/
def compileFieldsAux (acc : List (String × CompiledField)) :
    List SHProperty → Except JSError (List (String × CompiledField))
  | [] => .ok acc
  | p :: rest =>
    match compileProperty p with
    | .error e => .error e
    | .ok r => compileFieldsAux (insertField acc r.1 r.2) rest

/-- The property loop of getMeshSource, starting from the empty
propertyFields object. -/
def compileFields (props : List SHProperty) : Except JSError (List (String × CompiledField)) :=
  compileFieldsAux [] props

/-- A shape descriptor as read by getMeshSource: the object lists found for
the target class, property, name and description attributes of the
shape. -/
structure SHShape where
  targetClass : List Term
  properties : List SHProperty
  shName : List Term
  shDescription : List Term
deriving DecidableEq

/-- Compilation of one shape by getMeshSource: the property loop first,
then the createObject argument record.  The name argument in the source is
the expression shName[0].value with a fallback to the empty string applied
AFTER the member access, so a shape with no name object crashes with a
runtime TypeError instead of a descriptive error. -/
def compileShape (s : SHShape) : Except JSError CompiledType :=
  match compileFields s.properties with
  | .error e => .error e
  | .ok fields =>
    match s.shName with
    | [] => .error (.typeError "Cannot read properties of undefined (reading value)")
    | n :: _ =>
      .ok { name := n.value
          , clss := s.targetClass.head?.map Term.value
          , fields := fields
          , description := s.shDescription.head?.map Term.value }

/-- The shape loop of getMeshSource: when no shape list is configured the
handler throws its not-implemented error, otherwise shapes compile in
order into the output type list. -/
def getMeshSource (shapes : Option (List SHShape)) : Except JSError (List CompiledType) :=
  match shapes with
  | none => .error (.thrown "Not implemented - shape discovery")
  | some ss => ss.mapM compileShape

/-- Modelled from the JavaScript object model: the member names every
plain object literal inherits from Object.prototype.  The in operator used
by the source consults the prototype chain, so all of these pass the
lookup in addition to the single own property iri. -/
def objectPrototypeMembers : List String :=
  [ "constructor", "hasOwnProperty", "isPrototypeOf", "propertyIsEnumerable"
  , "toLocaleString", "toString", "valueOf"
  , "__proto__", "__defineGetter__", "__defineSetter__"
  , "__lookupGetter__", "__lookupSetter__" ]

/-- Modelled from JavaScript: the in operator applied to the mapping
object literal of nodeFromDirective, whose single own property is iri;
because in consults the prototype chain, every Object.prototype member
name also passes. -/
def inMapping (key : String) : Bool :=
  key == "iri" || objectPrototypeMembers.contains key

/-- Result of nodeFromDirective: the source is untyped at this point and
returns either the NamedNode built by the own iri entry or, when the key
names an inherited Object.prototype member, whatever that member returns
when invoked on the mapping object with the value as argument (a string,
boolean, object or undefined, never a graph term).  The inherited result
is modelled abstractly by the key and the argument because no caller in
the repository consumes it: the enclosing resolver throws its
not-implemented error unconditionally. -/
inductive NodeResult where
  | term (t : Term)
  | inheritedCall (key : String) (arg : String)
deriving DecidableEq

/-- Modelled from JavaScript: invoking mapping[key](value) when key names
an inherited Object.prototype member.  The proto accessor yields the
prototype object, which is not callable, and defineGetter and defineSetter
require a function argument, so those three invocations raise TypeErrors;
the remaining members return a non-term value, modelled abstractly. -/
def inheritedMemberCall (key : String) (v : String) : Except JSError NodeResult :=
  if key = "__proto__" then .error (.typeError "mapping.key is not a function")
  else if key = "__defineGetter__" then .error (.typeError "Getter must be a function")
  else if key = "__defineSetter__" then .error (.typeError "Setter must be a function")
  else .ok (.inheritedCall key v)

/-- The expression mapping[key](value) of the source: the own iri entry
builds a NamedNode from the value; any other key reaching this point names
an inherited Object.prototype member, whose invocation is modelled by
inheritedMemberCall. -/
def mappingApply (key : String) (v : String) : Except JSError NodeResult :=
  if key = "iri" then .ok (.term (Term.namedNode v))
  else inheritedMemberCall key v

/-- The identifier resolution helper (nodeFromDirective in
lib/directives/properties.ts): requires a present directive argument object
with exactly one entry, requires the value to be a string, and looks the
key up with the in operator in the mapping whose only own entry is iri,
throwing the unknown-key error only when the lookup fails. -/
def nodeFromDirective (directive : Option (List (String × JSValue))) (directiveName : String) : Except JSError NodeResult :=
  match directive with
  | none =>
    .error (.thrown ("@" ++ (directiveName ++ " requires exactly one argument, received 0")))
  | some entries =>
    match entries with
    | [(key, value)] =>
      match value with
      | .str v =>
        if inMapping key then mappingApply key v
        else .error (.thrown ("Expected key to be one of iri; received " ++ key))
      | v =>
        .error (.thrown ("@" ++ (directiveName ++ (" accepts only string values, received " ++ typeofJS v))))
    | _ =>
      .error (.thrown ("@" ++ (directiveName ++ (" requires exactly one argument, received " ++ toString entries.length))))

/-- Example property descriptor: predicate a, datatype xsd string, name
literal label, minCount and maxCount literals 1. -/
def examplePropertyA : SHProperty :=
  { path := Term.namedNode "https://example.org/a"
  , datatype := [Term.namedNode "http://www.w3.org/2001/XMLSchema#string"]
  , nodeKind := [], clss := []
  , name := [Term.literal "label" (Term.namedNode "http://www.w3.org/2001/XMLSchema#string")]
  , maxCount := [Term.literal "1" (Term.namedNode "http://www.w3.org/2001/XMLSchema#integer")]
  , minCount := [Term.literal "1" (Term.namedNode "http://www.w3.org/2001/XMLSchema#integer")]
  , description := [] }

/-- Example property descriptor: like examplePropertyA but with predicate
b, deriving the same field name label. -/
def examplePropertyB : SHProperty :=
  { examplePropertyA with path := Term.namedNode "https://example.org/b" }

/-- Example shape holding the two properties that derive the same field
name. -/
def exampleShapeDup : SHShape :=
  { targetClass := [Term.namedNode "https://example.org/Thing"]
  , properties := [examplePropertyA, examplePropertyB]
  , shName := [Term.literal "Thing" (Term.namedNode "http://www.w3.org/2001/XMLSchema#string")]
  , shDescription := [] }

/-- Compiled field of examplePropertyA. -/
def exampleFieldA : CompiledField :=
  { iri := "https://example.org/a", type := GQLType.nonNull GQLType.gqlString, description := none }

/-- Compiled field of examplePropertyB. -/
def exampleFieldB : CompiledField :=
  { iri := "https://example.org/b", type := GQLType.nonNull GQLType.gqlString, description := none }

/-! Helper lemmas about message strings: two strings differ when they
differ at some character position, and a character position inside the
fixed leading part of an appended message is unaffected by the appended
tail.  These justify that the failure messages of the different decode
checks are pairwise distinguishable. -/

theorem string_ne_of_get (s t : String) (i : Nat) (hi : s.data[i]? ≠ t.data[i]?) : s ≠ t :=
  fun he => hi (he ▸ rfl)

theorem append_get_left (p a : String) (i : Nat) (h : i < p.data.length) :
    (p ++ a).data[i]? = p.data[i]? := by
  rw [String.data_append, List.getElem?_append_left h]

/-- Stage classifier on failure messages of the decode paths: it inspects
two fixed character positions and assigns 1 to the term-kind failure
message, 2 to both datatype-stage failure messages, and 3 to the messages
the lexical stages can produce.  A caller can therefore distinguish the
failing check from the message alone. -/
def msgStage (m : String) : Option Nat :=
  if m.data[0]? = some 'I' then some 3
  else if m.data[9]? = some 'L' then some 1
  else if m.data[9]? = some 'd' then some 2
  else if m.data[9]? = some 'a' then some 2
  else if m.data[9]? = some 'n' then some 3
  else none

/-- C1: the claim asserts decode(encode(v)) = v for every family and every
valid native v.  The code refutes it for the Integer family: the encode
path (parseValue of the int mapper) contains an inverted typeof check that
throws precisely when the value IS a number, so encoding the valid native
integer 42 fails outright (and the corresponding decode path inverts the
same check, failing on every valid integer literal), contradicting the
error message it raises; the round-trip therefore cannot hold. -/
theorem c1_integer_encode_rejects_valid_number :
    int_parseValue (JSValue.num (JSNum.int 42)) =
      .error (.thrown "Expected node to have number value, instead received 42 of type number") := rfl

/-- C9: the claim asserts every family's encode produces a Literal tagged
with the canonical datatype IRI on every valid native value.  The code
refutes it for the Double family: the encode path (parseValue of the float
mapper) throws on every number because its typeof check is inverted, so no
Literal is produced at all for the valid native number 2. -/
theorem c9_double_encode_rejects_valid_number :
    float_parseValue (JSValue.num (JSNum.int 2)) =
      .error (.thrown "Expected node to have number value, instead received 2 of type number") := rfl

/-- C2: case analysis of the cardinality resolver on integer or absent
counts: minCount 1 with maxCount 1 gives a required scalar; minCount 0 or
absent with maxCount 1 gives an optional scalar; absent maxCount or
maxCount above 1 gives a required list of required elements whatever the
minCount; a present maxCount below 1 fails with the invalid-constraint
error; and any remaining combination (maxCount exactly 1 with any other
minCount) fails with the invalid-constraint error. -/
theorem c2_cardinality_resolver (t : GQLType) (mi mx : Option Int) :
    ((mi = some 1 ∧ mx = some 1) →
      modifier t (mi.map JSNum.int) (mx.map JSNum.int) = .ok (.nonNull t))
    ∧ (((mi = some 0 ∨ mi = none) ∧ mx = some 1) →
      modifier t (mi.map JSNum.int) (mx.map JSNum.int) = .ok t)
    ∧ ((mx = none ∨ (∃ m, mx = some m ∧ 1 < m)) →
      modifier t (mi.map JSNum.int) (mx.map JSNum.int) = .ok (.nonNull (.list (.nonNull t))))
    ∧ (∀ m, mx = some m → m < 1 →
      modifier t (mi.map JSNum.int) (mx.map JSNum.int) =
        .error (.thrown "Field should not exist for maxCount less than 1"))
    ∧ (∀ n, mi = some n → mx = some 1 → n ≠ 0 → n ≠ 1 →
      modifier t (mi.map JSNum.int) (mx.map JSNum.int) =
        .error (.thrown ("Invalid SHACL constraint - received minCount: " ++ (toString n ++ " and maxCount: 1")))) := by
  refine ⟨?_, ?_, ?_, ?_, ?_⟩
  · rintro ⟨rfl, rfl⟩
    rfl
  · rintro ⟨rfl | rfl, rfl⟩ <;> rfl
  · rintro (rfl | ⟨m, rfl, hm⟩)
    · cases mi <;> rfl
    · have h1 : JSNum.lt (.int m) (.int 1) = false := by simp [JSNum.lt]; omega
      have h2 : JSNum.gt (.int m) (.int 1) = true := by simp [JSNum.gt, JSNum.lt]; omega
      cases mi <;> simp [modifier, h1, h2]
  · rintro m rfl hm
    have h1 : JSNum.lt (.int m) (.int 1) = true := by simp [JSNum.lt]; omega
    cases mi <;> simp [modifier, h1]
  · rintro n rfl rfl hn0 hn1
    have h1 : JSNum.lt (.int 1) (.int 1) = false := by simp [JSNum.lt]
    have h2 : JSNum.gt (.int 1) (.int 1) = false := by simp [JSNum.gt, JSNum.lt]
    have h3 : JSNum.eqJS (.int n) (.int 1) = false := by simp [JSNum.eqJS]; omega
    have h4 : JSNum.eqJS (.int n) (.int 0) = false := by simp [JSNum.eqJS]; omega
    simp [modifier, h1, h2, h3, h4, JSNum.render]
    rfl

/-- C2 witness: the resolver at minCount 0 and maxCount 1 yields the
optional scalar. -/
theorem c2_cardinality_resolver_witness :
    modifier GQLType.gqlString ((some 0 : Option Int).map JSNum.int) ((some 1 : Option Int).map JSNum.int) =
      .ok GQLType.gqlString :=
  (c2_cardinality_resolver GQLType.gqlString (some 0) (some 1)).2.1 ⟨Or.inl rfl, rfl⟩

/-- C3 counterexample: a concrete shape whose property carries the
non-integer maxCount literal many compiles successfully to a required
scalar field instead of failing with the invalid-constraint error:
parseInt yields NaN, NaN fails both maxCount comparisons, and the resolver
falls through to the minCount checks as if maxCount were exactly 1. -/
theorem c3_count_parse_counterexample :
    compileShape
      { targetClass := []
      , properties := [{ path := Term.namedNode "https://example.org/age"
                       , datatype := [Term.namedNode "http://www.w3.org/2001/XMLSchema#integer"]
                       , nodeKind := [], clss := []
                       , name := [Term.literal "age" (Term.namedNode "http://www.w3.org/2001/XMLSchema#string")]
                       , maxCount := [Term.literal "many" (Term.namedNode "http://www.w3.org/2001/XMLSchema#integer")]
                       , minCount := [Term.literal "1" (Term.namedNode "http://www.w3.org/2001/XMLSchema#integer")]
                       , description := [] }]
      , shName := [Term.literal "Person" (Term.namedNode "http://www.w3.org/2001/XMLSchema#string")]
      , shDescription := [] }
    = .ok { name := "Person", clss := none
          , fields := [("age", { iri := "https://example.org/age", type := .nonNull .gqlInt, description := none })]
          , description := none } := rfl

/-- C3 amended: parse failures on count literals are not uniformly
rejected.  A minCount literal that parses to NaN fails with the
invalid-constraint error when maxCount is exactly 1 (NaN is strictly equal
to neither 1 nor 0), and when both parse to NaN the same error is raised;
but a maxCount literal that parses to NaN is silently treated like a
maxCount of exactly 1, so the resolver succeeds whenever the minCount
parses to 1 or 0. -/
theorem c3_count_parse_amended (t : GQLType) (minS maxS : String) :
    (parseIntJS minS = JSNum.nan →
      modifier t (some (parseIntJS minS)) (some (.int 1)) =
        .error (.thrown "Invalid SHACL constraint - received minCount: NaN and maxCount: 1"))
    ∧ (parseIntJS maxS = JSNum.nan → parseIntJS minS = JSNum.int 1 →
      modifier t (some (parseIntJS minS)) (some (parseIntJS maxS)) = .ok (.nonNull t))
    ∧ (parseIntJS maxS = JSNum.nan → parseIntJS minS = JSNum.int 0 →
      modifier t (some (parseIntJS minS)) (some (parseIntJS maxS)) = .ok t)
    ∧ (parseIntJS maxS = JSNum.nan → parseIntJS minS = JSNum.nan →
      modifier t (some (parseIntJS minS)) (some (parseIntJS maxS)) =
        .error (.thrown "Invalid SHACL constraint - received minCount: NaN and maxCount: NaN")) := by
  refine ⟨?_, ?_, ?_, ?_⟩
  · intro h
    rw [h]
    rfl
  · intro hmax hmin
    rw [hmax, hmin]
    rfl
  · intro hmax hmin
    rw [hmax, hmin]
    rfl
  · intro hmax hmin
    rw [hmax, hmin]
    rfl

/-- C3 amended witness: the unparsable maxCount literal zzz together with
the minCount literal 1 resolves successfully to a required scalar. -/
theorem c3_count_parse_amended_witness :
    modifier GQLType.gqlString (some (parseIntJS "1")) (some (parseIntJS "zzz")) =
      .ok (.nonNull GQLType.gqlString) :=
  (c3_count_parse_amended GQLType.gqlString "1" "zzz").2.1 rfl rfl

/-- C5 counterexample: the claim says every single key other than iri with
a text value fails with the unknown-key error.  The source looks the key
up with the in operator, which consults the prototype chain, so the
inherited member name toString passes the lookup: the helper succeeds,
invoking the inherited member and returning a non-term value instead of
raising any error. -/
theorem c5_prototype_chain_counterexample :
    nodeFromDirective (some [("toString", JSValue.str "x")]) "identifier" =
      .ok (.inheritedCall "toString" "x") := rfl

/-- C5 amended: the helper returns the NamedNode identifier for the single
key iri with a text value; a single key with a text value fails with the
unknown-key error naming iri exactly when the key is neither iri nor the
name of a member inherited from Object.prototype; an inherited member name
passes the lookup and the inherited member is invoked instead, which never
raises the thrown unknown-key error (it returns a non-term value, or a
TypeError for the three non-invocable members); a missing argument object
or an argument set without exactly one entry fails with the arity error;
and a single entry whose value is not a string fails with the
string-values-only error. -/
theorem c5_nodeFromDirective_amended (dn : String) :
    (∀ v, nodeFromDirective (some [("iri", JSValue.str v)]) dn = .ok (.term (Term.namedNode v)))
    ∧ (∀ k v, k ≠ "iri" → objectPrototypeMembers.contains k = false →
      nodeFromDirective (some [(k, JSValue.str v)]) dn =
        .error (.thrown ("Expected key to be one of iri; received " ++ k)))
    ∧ (∀ k v, k ≠ "iri" → objectPrototypeMembers.contains k = true →
      nodeFromDirective (some [(k, JSValue.str v)]) dn = inheritedMemberCall k v
      ∧ (∀ m, inheritedMemberCall k v ≠ .error (.thrown m)))
    ∧ (nodeFromDirective none dn =
        .error (.thrown ("@" ++ (dn ++ " requires exactly one argument, received 0"))))
    ∧ (∀ entries : List (String × JSValue), (∀ e, entries ≠ [e]) →
      nodeFromDirective (some entries) dn =
        .error (.thrown ("@" ++ (dn ++ (" requires exactly one argument, received " ++ toString (List.length entries))))))
    ∧ (∀ k v, typeofJS v ≠ "string" →
      nodeFromDirective (some [(k, v)]) dn =
        .error (.thrown ("@" ++ (dn ++ (" accepts only string values, received " ++ typeofJS v))))) := by
  refine ⟨?_, ?_, ?_, rfl, ?_, ?_⟩
  · intro v
    rfl
  · intro k v hk hc
    have hc2 : k ∉ objectPrototypeMembers := by simpa using hc
    have hm : inMapping k = false := by
      simp [inMapping, hk, hc2]
    simp [nodeFromDirective, hm]
  · intro k v hk hc
    have hc2 : k ∈ objectPrototypeMembers := by simpa using hc
    have hm : inMapping k = true := by
      simp [inMapping, hc2]
    refine ⟨by simp [nodeFromDirective, hm, mappingApply, hk], ?_⟩
    intro m
    unfold inheritedMemberCall
    split
    · simp
    · split
      · simp
      · split <;> simp
  · intro entries h
    rcases entries with _ | ⟨x, _ | ⟨y, rest⟩⟩
    · rfl
    · exact absurd rfl (h x)
    · rfl
  · intro k v hv
    cases v with
    | str s => exact absurd rfl hv
    | num n => rfl
    | boolean b => rfl
    | date iso => rfl
    | url href => rfl

/-- C5 amended witness: the key foo is neither iri nor an inherited
Object.prototype member, so it fails with the unknown-key error naming
iri. -/
theorem c5_nodeFromDirective_amended_witness :
    nodeFromDirective (some [("foo", JSValue.str "x")]) "identifier" =
      .error (.thrown "Expected key to be one of iri; received foo") :=
  (c5_nodeFromDirective_amended "identifier").2.1 "foo" "x" (by decide) (by decide)

/-- C6: when a shape contains exactly two properties and both compile to
the same field name, the compiled type holds exactly one field under that
name and its content is the one of the later property; nothing is rejected
and no duplicate entry is kept. -/
theorem c6_duplicate_field_last_write (s : SHShape) (p1 p2 : SHProperty) (n : String)
    (f1 f2 : CompiledField) (t0 : Term) (rest : List Term) :
    s.properties = [p1, p2] →
    compileProperty p1 = .ok (n, f1) →
    compileProperty p2 = .ok (n, f2) →
    s.shName = t0 :: rest →
    compileShape s = .ok { name := t0.value
                         , clss := s.targetClass.head?.map Term.value
                         , fields := [(n, f2)]
                         , description := s.shDescription.head?.map Term.value } := by
  intro hp hp1 hp2 hn
  simp [compileShape, compileFields, hp, compileFieldsAux, hp1, hp2, insertField, hn]

/-- C6 witness: a concrete shape whose two properties both derive the
field name label compiles to a single label field carrying the second
property's predicate IRI. -/
theorem c6_duplicate_field_last_write_witness :
    compileShape exampleShapeDup
    = .ok { name := "Thing", clss := some "https://example.org/Thing"
          , fields := [("label", exampleFieldB)]
          , description := none } :=
  c6_duplicate_field_last_write exampleShapeDup examplePropertyA examplePropertyB "label"
    exampleFieldA exampleFieldB
    (Term.literal "Thing" (Term.namedNode "http://www.w3.org/2001/XMLSchema#string")) []
    rfl rfl rfl rfl

/-- C7: a property whose path is not a NamedNode fails with the
unsupported-path error (whatever its name), and a property with a NamedNode
path but no derived field name fails with the missing-field-name error; in
both cases nothing is compiled, provided the field type resolves and the
cardinality resolver succeeds (those checks run first, see the precedence
claim). -/
theorem c7_missing_name_or_unsupported_path (p : SHProperty) (ft wrapped : GQLType) :
    (fieldTypeOf p.datatype = some ft →
      modifier ft (countArg p.minCount) (countArg p.maxCount) = .ok wrapped →
      (∀ v, p.path ≠ Term.namedNode v) →
      compileProperty p = .error (.thrown "Path should be a NameNode"))
    ∧ (∀ v, fieldTypeOf p.datatype = some ft →
      modifier ft (countArg p.minCount) (countArg p.maxCount) = .ok wrapped →
      p.path = Term.namedNode v →
      fieldNameOf p.name = none →
      compileProperty p = .error (.thrown "Expected field name to be defined by this point")) := by
  constructor
  · intro hft hmod hpath
    cases hp : p.path with
    | namedNode v => exact absurd hp (hpath v)
    | blankNode v => simp [compileProperty, hft, hmod, hp]
    | literal lex dt => simp [compileProperty, hft, hmod, hp]
  · intro v hft hmod hp hname
    simp [compileProperty, hft, hmod, hp, hname]

/-- C7 witness: a property with a BlankNode path and an otherwise valid
descriptor fails with the unsupported-path error. -/
theorem c7_missing_name_or_unsupported_path_witness :
    compileProperty
      { path := Term.blankNode "b0"
      , datatype := [Term.namedNode "http://www.w3.org/2001/XMLSchema#string"]
      , nodeKind := [], clss := []
      , name := [Term.literal "x" (Term.namedNode "http://www.w3.org/2001/XMLSchema#string")]
      , maxCount := [], minCount := [], description := [] }
    = .error (.thrown "Path should be a NameNode") :=
  (c7_missing_name_or_unsupported_path
      { path := Term.blankNode "b0"
      , datatype := [Term.namedNode "http://www.w3.org/2001/XMLSchema#string"]
      , nodeKind := [], clss := []
      , name := [Term.literal "x" (Term.namedNode "http://www.w3.org/2001/XMLSchema#string")]
      , maxCount := [], minCount := [], description := [] }
      GQLType.gqlString (GQLType.nonNull (GQLType.list (GQLType.nonNull GQLType.gqlString)))).1
    rfl rfl (fun _ h => Term.noConfusion h)

/-- C8 counterexample: a concrete shape with no name object does not fail
with a descriptive missing-shape-name error; the compilation crashes with
the generic runtime TypeError raised by the member access shName[0].value
on undefined. -/
theorem c8_missing_shape_name_counterexample :
    compileShape { targetClass := [], properties := [], shName := [], shDescription := [] } =
      .error (.typeError "Cannot read properties of undefined (reading value)") := rfl

/-- C8 amended: compiling a shape with no name object fails for every
shape whose properties compile, but with the generic undefined-member
TypeError rather than a descriptive error, and no compiled type is
produced. -/
theorem c8_missing_shape_name_amended (s : SHShape) (fields : List (String × CompiledField)) :
    s.shName = [] →
    compileFields s.properties = .ok fields →
    compileShape s = .error (.typeError "Cannot read properties of undefined (reading value)") := by
  intro hn hf
  simp [compileShape, hf, hn]

/-- C8 amended witness: a shape with one valid property and no name object
crashes with the generic TypeError. -/
theorem c8_missing_shape_name_amended_witness :
    compileShape
      { targetClass := []
      , properties := [ { path := Term.namedNode "https://example.org/name"
                        , datatype := [Term.namedNode "http://www.w3.org/2001/XMLSchema#string"]
                        , nodeKind := [], clss := []
                        , name := [Term.literal "name" (Term.namedNode "http://www.w3.org/2001/XMLSchema#string")]
                        , maxCount := [], minCount := [], description := [] } ]
      , shName := [], shDescription := [] }
    = .error (.typeError "Cannot read properties of undefined (reading value)") :=
  c8_missing_shape_name_amended _
    [("name", { iri := "https://example.org/name"
              , type := GQLType.nonNull (GQLType.list (GQLType.nonNull GQLType.gqlString))
              , description := none })]
    rfl rfl

/-- C10: the per-property failure checks of the shape compiler have a
fixed precedence: an unresolved field type fails first whatever the rest of
the descriptor; with a resolved field type, a failing cardinality
resolution propagates its error whatever the path and name; with both
succeeding, a non-NamedNode path fails next whatever the name; and only
then is a missing field name reported. -/
theorem c10_property_error_precedence (p : SHProperty) :
    (fieldTypeOf p.datatype = none →
      compileProperty p = .error (.thrown "Field type should be defined by now"))
    ∧ (∀ ft e, fieldTypeOf p.datatype = some ft →
      modifier ft (countArg p.minCount) (countArg p.maxCount) = .error e →
      compileProperty p = .error e)
    ∧ (∀ ft wrapped, fieldTypeOf p.datatype = some ft →
      modifier ft (countArg p.minCount) (countArg p.maxCount) = .ok wrapped →
      (∀ v, p.path ≠ Term.namedNode v) →
      compileProperty p = .error (.thrown "Path should be a NameNode"))
    ∧ (∀ ft wrapped v, fieldTypeOf p.datatype = some ft →
      modifier ft (countArg p.minCount) (countArg p.maxCount) = .ok wrapped →
      p.path = Term.namedNode v →
      fieldNameOf p.name = none →
      compileProperty p = .error (.thrown "Expected field name to be defined by this point")) := by
  refine ⟨?_, ?_, ?_, ?_⟩
  · intro hft
    simp [compileProperty, hft]
  · intro ft e hft hmod
    simp [compileProperty, hft, hmod]
  · intro ft wrapped hft hmod hpath
    cases hp : p.path with
    | namedNode v => exact absurd hp (hpath v)
    | blankNode v => simp [compileProperty, hft, hmod, hp]
    | literal lex dt => simp [compileProperty, hft, hmod, hp]
  · intro ft wrapped v hft hmod hp hname
    simp [compileProperty, hft, hmod, hp, hname]

/-- C10 witness: a property lacking both a resolvable datatype and a name
fails with the field-type error, not the name error. -/
theorem c10_property_error_precedence_witness :
    compileProperty
      { path := Term.namedNode "https://example.org/p"
      , datatype := [], nodeKind := [], clss := []
      , name := [], maxCount := [], minCount := [], description := [] }
    = .error (.thrown "Field type should be defined by now") :=
  (c10_property_error_precedence
      { path := Term.namedNode "https://example.org/p"
      , datatype := [], nodeKind := [], clss := []
      , name := [], maxCount := [], minCount := [], description := [] }).1 rfl

/-- C4: every codec decode checks, in order, (1) the term kind, (2) the
datatype (NamedNode kind then membership in the recognized IRI set), and
(3) lexical validity, and each failing check short-circuits: a non-Literal
term yields the term-kind message whatever its content; a Literal with a
non-NamedNode or unrecognized datatype yields the corresponding
datatype-stage message whatever its lexical value; and only with term kind
and datatype accepted is the result that of the lexical stage alone.  The
ID codec decode consists of the term-kind check only.  The failure kinds
are distinguishable: the stage classifier msgStage maps the term-kind
message to 1, both datatype-stage messages to 2 and every message a
lexical stage can raise to 3 (the url lexical failure is a TypeError, a
different error constructor from all thrown messages), and messages with
different stages are distinct strings. -/
theorem c4_decode_check_order :
    (∀ t : Term, (∀ lex dt, t ≠ Term.literal lex dt) →
      string_serialize t = .error (.thrown (expectedLiteralMsg t))
      ∧ date_serialize t = .error (.thrown (expectedLiteralMsg t))
      ∧ int_serialize t = .error (.thrown (expectedLiteralMsg t))
      ∧ float_serialize t = .error (.thrown (expectedLiteralMsg t))
      ∧ url_serialize t = .error (.thrown (expectedLiteralMsg t))
      ∧ boolean_serialize t = .error (.thrown (expectedLiteralMsg t)))
    ∧ (∀ lex dt, (∀ u, dt ≠ Term.namedNode u) →
      string_serialize (.literal lex dt) = .error (.thrown (expectedNamedNodeMsg dt))
      ∧ date_serialize (.literal lex dt) = .error (.thrown (expectedNamedNodeMsg dt))
      ∧ int_serialize (.literal lex dt) = .error (.thrown (expectedNamedNodeMsg dt))
      ∧ float_serialize (.literal lex dt) = .error (.thrown (expectedNamedNodeMsg dt))
      ∧ url_serialize (.literal lex dt) = .error (.thrown (expectedNamedNodeMsg dt))
      ∧ boolean_serialize (.literal lex dt) = .error (.thrown (expectedNamedNodeMsg dt)))
    ∧ (∀ lex u,
      (TypeHandlerString_TYPES.contains u = false →
        string_serialize (.literal lex (.namedNode u)) =
          .error (.thrown ("Expected a string type, instead received " ++ u)))
      ∧ (TypeHandlerString_TYPES.contains u = true →
        string_serialize (.literal lex (.namedNode u)) = string_lexStage lex)
      ∧ (TypeHandlerDate_TYPES.contains u = false →
        date_serialize (.literal lex (.namedNode u)) =
          .error (.thrown ("Expected a string type, instead received " ++ u)))
      ∧ (TypeHandlerDate_TYPES.contains u = true →
        date_serialize (.literal lex (.namedNode u)) = date_lexStage lex)
      ∧ (TypeHandlerNumberInteger_TYPES.contains u = false →
        int_serialize (.literal lex (.namedNode u)) =
          .error (.thrown ("Expected a string type, instead received " ++ u)))
      ∧ (TypeHandlerNumberInteger_TYPES.contains u = true →
        int_serialize (.literal lex (.namedNode u)) = int_lexStage lex)
      ∧ (TypeHandlerNumberDouble_TYPES.contains u = false →
        float_serialize (.literal lex (.namedNode u)) =
          .error (.thrown ("Expected a string type, instead received " ++ u)))
      ∧ (TypeHandlerNumberDouble_TYPES.contains u = true →
        float_serialize (.literal lex (.namedNode u)) = float_lexStage lex)
      ∧ (u ≠ anyURI →
        url_serialize (.literal lex (.namedNode u)) =
          .error (.thrown ("Expected a anyURI type, instead received " ++ u)))
      ∧ (u = anyURI →
        url_serialize (.literal lex (.namedNode u)) = url_lexStage lex)
      ∧ (u ≠ TypeHandlerBoolean_TYPE →
        boolean_serialize (.literal lex (.namedNode u)) =
          .error (.thrown ("Expected a boolean type, instead received " ++ u)))
      ∧ (u = TypeHandlerBoolean_TYPE →
        boolean_serialize (.literal lex (.namedNode u)) = boolean_lexStage lex))
    ∧ (∀ t : Term, (∀ v, t ≠ Term.namedNode v) → ∀ sn,
        ID_serialize sn t = .error (.thrown ("Expected @" ++ (sn ++ " to be a NamedNode"))))
    ∧ (∀ v sn, ID_serialize sn (Term.namedNode v) = .ok (.str v))
    ∧ (∀ t, msgStage (expectedLiteralMsg t) = some 1)
    ∧ (∀ dt, msgStage (expectedNamedNodeMsg dt) = some 2)
    ∧ (∀ u, msgStage ("Expected a string type, instead received " ++ u) = some 2
        ∧ msgStage ("Expected a anyURI type, instead received " ++ u) = some 2
        ∧ msgStage ("Expected a boolean type, instead received " ++ u) = some 2)
    ∧ (∀ v m,
        (string_lexStage v = .error (.thrown m) ∨ date_lexStage v = .error (.thrown m)
          ∨ int_lexStage v = .error (.thrown m) ∨ float_lexStage v = .error (.thrown m)
          ∨ boolean_lexStage v = .error (.thrown m)) →
        msgStage m = some 3)
    ∧ (∀ v m, url_lexStage v ≠ .error (.thrown m))
    ∧ (∀ m1 m2 : String, msgStage m1 ≠ msgStage m2 → m1 ≠ m2) := by
  refine ⟨?_, ?_, ?_, ?_, ?_, ?_, ?_, ?_, ?_, ?_, ?_⟩
  · intro t h
    cases t with
    | namedNode v => exact ⟨rfl, rfl, rfl, rfl, rfl, rfl⟩
    | blankNode v => exact ⟨rfl, rfl, rfl, rfl, rfl, rfl⟩
    | literal lex dt => exact absurd rfl (h lex dt)
  · intro lex dt h
    cases dt with
    | namedNode u => exact absurd rfl (h u)
    | blankNode v => exact ⟨rfl, rfl, rfl, rfl, rfl, rfl⟩
    | literal l2 d2 => exact ⟨rfl, rfl, rfl, rfl, rfl, rfl⟩
  · intro lex u
    refine ⟨?_, ?_, ?_, ?_, ?_, ?_, ?_, ?_, ?_, ?_, ?_, ?_⟩
    · intro h
      simp only [string_serialize]
      rw [h]
      rfl
    · intro h
      simp only [string_serialize]
      rw [h]
      rfl
    · intro h
      simp only [date_serialize]
      rw [h]
      rfl
    · intro h
      simp only [date_serialize]
      rw [h]
      rfl
    · intro h
      simp only [int_serialize]
      rw [h]
      rfl
    · intro h
      simp only [int_serialize]
      rw [h]
      rfl
    · intro h
      simp only [float_serialize]
      rw [h]
      rfl
    · intro h
      simp only [float_serialize]
      rw [h]
      rfl
    · intro h
      simp [url_serialize, h]
    · intro h
      simp [url_serialize, h]
    · intro h
      simp [boolean_serialize, h]
    · intro h
      simp [boolean_serialize, boolean_lexStage, h]
  · intro t h sn
    cases t with
    | namedNode v => exact absurd rfl (h v)
    | blankNode v => rfl
    | literal lex dt => rfl
  · intro v sn
    rfl
  · intro t
    unfold msgStage expectedLiteralMsg
    rw [append_get_left _ _ _ (by decide), append_get_left _ _ _ (by decide)]
    decide
  · intro dt
    unfold msgStage expectedNamedNodeMsg
    rw [append_get_left _ _ _ (by decide), append_get_left _ _ _ (by decide)]
    decide
  · intro u
    refine ⟨?_, ?_, ?_⟩ <;>
      · unfold msgStage
        rw [append_get_left _ _ _ (by decide), append_get_left _ _ _ (by decide)]
        decide
  · intro v m h
    rcases h with h | h | h | h | h
    · exact absurd h (by simp [string_lexStage, stringHandler_fromRdf, typeofJS])
    · by_cases hd : isDateLexical v
      · simp [date_lexStage, dateHandler_fromRdf, hd] at h
      · simp [date_lexStage, dateHandler_fromRdf, hd] at h
        subst h
        unfold msgStage
        rw [append_get_left _ _ _ (by decide), append_get_left _ _ _ (by decide)]
        decide
    · cases hpi : parseIntegerLexical v with
      | some n =>
        simp [int_lexStage, intHandler_fromRdf, hpi, typeofJS, renderJS] at h
        subst h
        unfold msgStage
        rw [append_get_left _ _ _ (by decide), append_get_left _ _ _ (by decide)]
        decide
      | none =>
        simp [int_lexStage, intHandler_fromRdf, hpi] at h
        subst h
        unfold msgStage
        rw [append_get_left _ _ _ (by decide), append_get_left _ _ _ (by decide)]
        decide
    · by_cases hd : isDoubleLexical v
      · simp [float_lexStage, doubleHandler_fromRdf, hd, typeofJS, renderJS] at h
        subst h
        unfold msgStage
        rw [append_get_left _ _ _ (by decide), append_get_left _ _ _ (by decide)]
        decide
      · simp [float_lexStage, doubleHandler_fromRdf, hd] at h
        subst h
        unfold msgStage
        rw [append_get_left _ _ _ (by decide), append_get_left _ _ _ (by decide)]
        decide
    · by_cases h1 : v = "true" ∨ v = "1"
      · simp [boolean_lexStage, h1] at h
      · by_cases h2 : v = "false" ∨ v = "0"
        · simp [boolean_lexStage, h1, h2] at h
        · simp [boolean_lexStage, h1, h2] at h
          subst h
          unfold msgStage
          rw [append_get_left _ _ _ (by decide), append_get_left _ _ _ (by decide)]
          decide
  · intro v m h
    cases hu : urlParse v <;> simp [url_lexStage, typeofJS, hu] at h
  · exact fun m1 m2 h he => h (he ▸ rfl)

/-- C4 witness: the string codec decode on a BlankNode fails at the first
check with the term-kind message. -/
theorem c4_decode_check_order_witness :
    string_serialize (Term.blankNode "b") =
      .error (.thrown "Expected Literal term, instead received b of type BlankNode") :=
  (c4_decode_check_order.1 (Term.blankNode "b") (fun _ _ h => Term.noConfusion h)).1
